import Mathlib

/-!
Verification of the license-issuance core of the LicenseGenerator
repository (src/main.py), as a shallow embedding in Lean 4.

The embedded pieces are:
* the `licenses` table row (`License`, src/main.py lines 46-56),
* `generate_license_key` (lines 67-71), with the secure random source
  modelled as an arbitrary stream of draws from the 36-character alphabet,
* `validate_phone` (lines 74-77),
* the `on_generate_save` handler (lines 134-180): input trimming and
  validation, the bounded generate-and-check loop, and the
  add/commit/rollback sequence against the store (the SQLite database is
  modelled as a list of rows; the UNIQUE constraint on `license_key` and
  commit-time I/O failure are modelled inside `insert_commit`),
* `ViewDialog.load_data` (lines 204-216): the `ORDER BY created_at DESC`
  query is modelled as a stable sort of the store's rows.
-/

/-- A row of the `licenses` table: surrogate id, holder name and phone,
the license key (UNIQUE column), and the creation timestamp (modelled as
a natural number). -/
structure License where
  id : Nat
  full_name : String
  phone : String
  license_key : String
  created_at : Nat
  deriving Repr, DecidableEq

/-- The database state: the rows of the `licenses` table, in insertion
order. -/
abbrev Store := List License

/-- The fixed key alphabet: uppercase ASCII letters followed by the ten
digits, as in `string.ascii_uppercase + string.digits`. -/
def alphabet : List Char := "ABCDEFGHIJKLMNOPQRSTUVWXYZ0123456789".toList

/-- One draw of `secrets.choice(alphabet)`: the i-th character of the
36-character alphabet. -/
def alphabetChar (i : Fin 36) : Char := alphabet.getD i.val 'A'

/-- `generate_license_key(parts, part_len)`: `parts` groups of `part_len`
characters drawn from the alphabet, joined by `"-"`. The secure random
source is modelled by `draws`, an arbitrary stream of alphabet indices;
the draw consumed for position `j` of group `g` is `draws (g*part_len+j)`. -/
def generate_license_key (draws : Nat → Fin 36) (parts : Nat := 4)
    (part_len : Nat := 5) : String :=
  String.intercalate ("-")
    ((List.range parts).map (fun g =>
      String.mk ((List.range part_len).map
        (fun j => alphabetChar (draws (g * part_len + j))))))

/-- Python's `str.strip()`: remove leading and trailing whitespace
characters. -/
def pyStrip (s : String) : String :=
  String.mk
    ((((s.toList.dropWhile Char.isWhitespace).reverse.dropWhile
      Char.isWhitespace).reverse))

/-- `validate_phone`: strip every non-digit character and require between
7 and 15 digits, as in `re.sub(r"[^0-9]", "", phone)`. -/
def validate_phone (phone : String) : Bool :=
  let digits := phone.toList.filter Char.isDigit
  7 ≤ digits.length && digits.length ≤ 15

/-- Whether a key is already present in the store:
`session.query(License).filter_by(license_key=candidate).first()` is
truthy. -/
def existsKey (st : Store) (k : String) : Bool :=
  st.any (fun r => r.license_key == k)

/-- The generate-and-check loop of `on_generate_save`:
`tries = 0; while tries < 10: candidate = generate(); if not exists:
new_key = candidate; break; tries += 1`. `fuel` is the number of loop
iterations still allowed, `tries` the current counter; the result pairs
the found key (if any) with the final value of `tries`. -/
def key_search (ex : String → Bool) (gen : Nat → String) :
    Nat → Nat → Option String × Nat
  | 0, tries => (none, tries)
  | fuel + 1, tries =>
    let candidate := gen tries
    if ex candidate then key_search ex gen fuel (tries + 1)
    else (some candidate, tries)

/-- The full loop with the source's bound of 10 attempts. -/
def find_unique_key (ex : String → Bool) (gen : Nat → String) :
    Option String × Nat :=
  key_search ex gen 10 0

/-- `session.add(license_obj); session.commit()` with rollback on
failure: the commit succeeds only when I/O succeeds (`io_ok`) and the
UNIQUE constraint on `license_key` is not violated; otherwise the
transaction is rolled back and the store is unchanged (`none`). -/
def insert_commit (st : Store) (r : License) (io_ok : Bool) :
    Option Store :=
  if io_ok && !existsKey st r.license_key then some (st ++ [r]) else none

/-- The observable outcome of one `on_generate_save` invocation. -/
inductive IssueResult where
  | validationError (msg : String)
  | collisionExhausted
  | persistenceError
  | saved (key : String)
  deriving Repr, DecidableEq

/-- The `on_generate_save` handler. Inputs are the two text fields
(before `.strip()`), the random stream, the id and timestamp the store
will assign, and whether commit-time I/O succeeds. Returns the outcome
and the new store state. -/
def on_generate_save (st : Store) (name_input phone_input : String)
    (gen : Nat → String) (next_id now : Nat) (io_ok : Bool) :
    IssueResult × Store :=
  let full_name := pyStrip name_input
  let phone := pyStrip phone_input
  if full_name = "" then
    (.validationError ("Full name cannot be empty"), st)
  else if !validate_phone phone then
    (.validationError ("Phone number seems invalid. Use 7-15 digits."), st)
  else
    match find_unique_key (existsKey st) gen with
    | (none, _) => (.collisionExhausted, st)
    | (some new_key, _) =>
      match insert_commit st
          ⟨next_id, full_name, phone, new_key, now⟩ io_ok with
      | none => (.persistenceError, st)
      | some st' => (.saved new_key, st')

/-- `ViewDialog.load_data`: the rows returned by
`session.query(License).order_by(License.created_at.desc()).all()`,
modelled as a stable sort of the store by descending `created_at`. -/
def load_data (st : Store) : List License :=
  List.insertionSort (fun a b => b.created_at ≤ a.created_at) st

/-- The store invariant: no two rows share a `license_key`. -/
def UniqueKeys (st : Store) : Prop :=
  (st.map (fun r => r.license_key)).Nodup

instance (st : Store) : Decidable (UniqueKeys st) := by
  unfold UniqueKeys; infer_instance

/-- Modelled from the spec: no ArtifactRenderer appears in src/ (there is
no rendering, QR or printing code in src/main.py); spec section 4.4
describes it as a pure mapping from an issued key to a printable artifact:
a raster encoding of the key as a scannable code embedded in a fixed
textual template (title, the key itself, issuer identifier). The raster
encoding is modelled abstractly as the sequence of the key's code points. -/
structure Artifact where
  qr_payload : List Nat
  page_text : String
  deriving Repr, DecidableEq

/-- Modelled from the spec: `render(key)` builds the artifact from the
key alone; the store state is taken as a parameter only so that
independence from it can be stated and proved. -/
def render (_store : Store) (key : String) : Artifact :=
  { qr_payload := key.toList.map Char.toNat
    page_text := "License" ++ "\n" ++ key ++ "\n" ++ "Issuer" }

/-- Modelled from the spec: repeated rendering of one key, as the list of
artifacts produced by `n` successive calls of `render` on that key. -/
def renderRepeated (store : Store) (key : String) : Nat → List Artifact
  | 0 => []
  | n + 1 => render store key :: renderRepeated store key n

/-- The descending-timestamp relation used by the listing query is total. -/
instance descTotal :
    IsTotal License (fun a b => b.created_at ≤ a.created_at) :=
  ⟨fun a b => Nat.le_total b.created_at a.created_at⟩

/-- The descending-timestamp relation used by the listing query is
transitive. -/
instance descTrans :
    IsTrans License (fun a b => b.created_at ≤ a.created_at) :=
  ⟨fun _ _ _ hab hbc => le_trans hbc hab⟩

/-! Helper lemmas. -/

theorem existsKey_eq_false {st : Store} {k : String} :
    existsKey st k = false ↔ ∀ r ∈ st, r.license_key ≠ k := by
  simp [existsKey]

theorem insert_commit_eq_some {st : Store} {r : License} {io : Bool}
    {st' : Store} (h : insert_commit st r io = some st') :
    io = true ∧ existsKey st r.license_key = false ∧ st' = st ++ [r] := by
  unfold insert_commit at h
  split at h
  · rename_i hc
    simp only [Bool.and_eq_true, Bool.not_eq_true'] at hc
    exact ⟨hc.1, hc.2, (Option.some.inj h).symm⟩
  · exact absurd h (by simp)

theorem uniqueKeys_append {st : Store} {r : License}
    (h : UniqueKeys st) (hk : existsKey st r.license_key = false) :
    UniqueKeys (st ++ [r]) := by
  unfold UniqueKeys at h ⊢
  rw [List.map_append, List.nodup_append]
  refine ⟨h, List.nodup_singleton _, ?_⟩
  intro x hx hmem
  simp only [List.map_cons, List.map_nil, List.mem_singleton] at hmem
  rcases List.mem_map.mp hx with ⟨s, hs, hsk⟩
  exact existsKey_eq_false.mp hk s hs (hsk.trans hmem)

theorem key_search_all_collide (ex : String → Bool) (gen : Nat → String) :
    ∀ fuel t, (∀ i, t ≤ i → i < t + fuel → ex (gen i) = true) →
      key_search ex gen fuel t = (none, t + fuel)
  | 0, t, _ => by simp [key_search]
  | fuel + 1, t, h => by
    unfold key_search
    rw [if_pos (h t le_rfl (by omega))]
    rw [key_search_all_collide ex gen fuel (t + 1)
      (fun i h1 h2 => h i (by omega) (by omega))]
    congr 1
    omega

theorem key_search_found {ex : String → Bool} {gen : Nat → String} :
    ∀ {fuel t k t'}, key_search ex gen fuel t = (some k, t') →
      ex k = false
  | 0, t, k, t', h => by simp [key_search] at h
  | fuel + 1, t, k, t', h => by
    simp only [key_search] at h
    split at h
    · exact key_search_found h
    · rename_i hex
      have hk : gen t = k := congrArg Prod.fst h |> Option.some.inj
      rw [← hk]
      simpa using hex

theorem on_generate_save_saved {st : Store} {name phone : String}
    {gen : Nat → String} {nid now : Nat} {io : Bool} {k : String}
    {st' : Store}
    (h : on_generate_save st name phone gen nid now io
      = (.saved k, st')) :
    existsKey st k = false ∧
    st' = st ++ [⟨nid, pyStrip name, pyStrip phone, k, now⟩] := by
  simp only [on_generate_save] at h
  split at h
  · simp at h
  · split at h
    · simp at h
    · split at h
      · simp at h
      · rename_i k' t hf
        split at h
        · simp at h
        · rename_i st'' hc
          obtain ⟨hk, hst⟩ := Prod.mk.inj h
          obtain ⟨_, hfree, happ⟩ := insert_commit_eq_some hc
          cases IssueResult.saved.inj hk
          exact ⟨hfree, hst ▸ happ⟩

theorem on_generate_save_not_saved {st : Store} {name phone : String}
    {gen : Nat → String} {nid now : Nat} {io : Bool} {res : IssueResult}
    {st' : Store}
    (h : on_generate_save st name phone gen nid now io = (res, st'))
    (hres : ∀ k, res ≠ .saved k) : st' = st := by
  simp only [on_generate_save] at h
  split at h
  · exact (Prod.mk.inj h).2.symm
  · split at h
    · exact (Prod.mk.inj h).2.symm
    · split at h
      · exact (Prod.mk.inj h).2.symm
      · split at h
        · exact (Prod.mk.inj h).2.symm
        · obtain ⟨hk, _⟩ := Prod.mk.inj h
          exact absurd hk.symm (hres _)

/-! Claim theorems. -/

/-- C1: Key uniqueness is a store invariant: from any store whose rows
have pairwise distinct keys, `on_generate_save` again yields a store with
pairwise distinct keys (a candidate is committed only if not already
present), and the commit layer (`insert_commit`, modelling the UNIQUE
column constraint) preserves the invariant for any attempted record,
independently of the guard's pre-check. -/
theorem key_uniqueness_invariant (st : Store) (name phone : String)
    (gen : Nat → String) (nid now : Nat) (io : Bool)
    (h : UniqueKeys st) :
    UniqueKeys (on_generate_save st name phone gen nid now io).2 ∧
    ∀ r st', insert_commit st r io = some st' → UniqueKeys st' := by
  constructor
  · rcases hres : on_generate_save st name phone gen nid now io with ⟨res, st'⟩
    cases res with
    | saved k =>
      obtain ⟨hfree, happ⟩ := on_generate_save_saved hres
      exact happ ▸ uniqueKeys_append h hfree
    | validationError msg =>
      exact (on_generate_save_not_saved hres (fun k h' => by cases h')) ▸ h
    | collisionExhausted =>
      exact (on_generate_save_not_saved hres (fun k h' => by cases h')) ▸ h
    | persistenceError =>
      exact (on_generate_save_not_saved hres (fun k h' => by cases h')) ▸ h
  · intro r st' hc
    obtain ⟨_, hfree, happ⟩ := insert_commit_eq_some hc
    exact happ ▸ uniqueKeys_append h hfree

/-- Witness for C1 at a concrete one-row store and inputs. -/
theorem key_uniqueness_invariant_witness :
    UniqueKeys (on_generate_save [⟨1, ("a"), ("1234567"), ("AAAAA"), 5⟩]
      ("Ali") ("1234567") (fun _ => ("BBBBB")) 2 9 true).2 ∧
    ∀ r st',
      insert_commit [⟨1, ("a"), ("1234567"), ("AAAAA"), 5⟩] r true
        = some st' → UniqueKeys st' :=
  key_uniqueness_invariant [⟨1, ("a"), ("1234567"), ("AAAAA"), 5⟩]
    ("Ali") ("1234567") (fun _ => ("BBBBB")) 2 9 true (by decide)

/-- C2: when every candidate the uniqueness check sees is reported as
already existing, the issuance attempt fails with the collision-exhausted
outcome, the store is unchanged, and the loop made exactly the configured
bound of 10 generate-and-check attempts (final tries counter 10,
no key found). -/
theorem collision_exhaustion (st : Store) (name phone : String)
    (gen : Nat → String) (nid now : Nat) (io : Bool)
    (hname : pyStrip name ≠ "")
    (hphone : validate_phone (pyStrip phone) = true)
    (hcol : ∀ i, i < 10 → existsKey st (gen i) = true) :
    on_generate_save st name phone gen nid now io
      = (.collisionExhausted, st) ∧
    find_unique_key (existsKey st) gen = (none, 10) := by
  have hfind : find_unique_key (existsKey st) gen = (none, 10) := by
    have h10 := key_search_all_collide (existsKey st) gen 10 0
      (fun i _ h2 => hcol i (by omega))
    simpa [find_unique_key] using h10
  refine ⟨?_, hfind⟩
  simp only [on_generate_save, if_neg hname, hphone, Bool.not_true,
    Bool.false_eq_true, if_false]
  rw [hfind]

/-- Witness for C2: a one-row store holding key K and a generator stuck
on K. -/
theorem collision_exhaustion_witness :
    on_generate_save [⟨1, ("a"), ("1234567"), ("K"), 5⟩] ("Ali")
      ("1234567") (fun _ => ("K")) 2 9 true
      = (.collisionExhausted, [⟨1, ("a"), ("1234567"), ("K"), 5⟩]) ∧
    find_unique_key (existsKey [⟨1, ("a"), ("1234567"), ("K"), 5⟩])
      (fun _ => ("K")) = (none, 10) :=
  collision_exhaustion [⟨1, ("a"), ("1234567"), ("K"), 5⟩] ("Ali")
    ("1234567") (fun _ => ("K")) 2 9 true (by decide) (by decide)
    (fun _ _ => rfl)

/-- C3: commit is atomic: with validation passed and a free key found,
a commit-time I/O failure yields the persistence-error outcome with the
store exactly as before; a commit attempted on a key that already exists
(the UNIQUE constraint) writes nothing; and whenever the handler reports
a persistence error the store is unchanged. -/
theorem commit_failure_rollback (st : Store) (name phone : String)
    (gen : Nat → String) (nid now : Nat)
    (hname : pyStrip name ≠ "")
    (hphone : validate_phone (pyStrip phone) = true)
    (k : String) (t : Nat)
    (hfind : find_unique_key (existsKey st) gen = (some k, t)) :
    on_generate_save st name phone gen nid now false
      = (.persistenceError, st) ∧
    (∀ r io, existsKey st r.license_key = true →
      insert_commit st r io = none) ∧
    (∀ io res st',
      on_generate_save st name phone gen nid now io = (res, st') →
      res = .persistenceError → st' = st) := by
  refine ⟨?_, ?_, ?_⟩
  · simp only [on_generate_save, if_neg hname, hphone, Bool.not_true,
      Bool.false_eq_true, if_false]
    rw [hfind]
    simp [insert_commit]
  · intro r io hex
    simp [insert_commit, hex]
  · intro io res st' h hres
    subst hres
    exact on_generate_save_not_saved h (fun k' h' => by cases h')

/-- Witness for C3 at the empty store, where the first candidate is
free and commit-time I/O fails. -/
theorem commit_failure_rollback_witness :
    on_generate_save [] ("Ali") ("1234567") (fun _ => ("K")) 1 9 false
      = (.persistenceError, []) ∧
    (∀ r io, existsKey [] r.license_key = true →
      insert_commit [] r io = none) ∧
    (∀ io res st',
      on_generate_save [] ("Ali") ("1234567") (fun _ => ("K")) 1 9 io
        = (res, st') →
      res = .persistenceError → st' = []) :=
  commit_failure_rollback [] ("Ali") ("1234567") (fun _ => ("K")) 1 9
    (by decide) (by decide) ("K") 0 (by decide)

/-- C4: for every sequence of random draws, the generated key consists of
4 groups of 5 alphabet characters joined by the dash separator: its
character list is exactly 20 alphabet characters with a dash after each
of the first three groups, and its total length is 23. -/
theorem generate_key_format (draws : Nat → Fin 36) :
    ∃ c : Nat → Char,
      (∀ i, i < 20 → c i ∈ alphabet) ∧
      (generate_license_key draws).toList =
        [c 0, c 1, c 2, c 3, c 4, '-',
         c 5, c 6, c 7, c 8, c 9, '-',
         c 10, c 11, c 12, c 13, c 14, '-',
         c 15, c 16, c 17, c 18, c 19] ∧
      (generate_license_key draws).length = 23 := by
  refine ⟨fun i => alphabetChar (draws i), fun i _ => ?_, rfl, rfl⟩
  have hall : ∀ j : Fin 36, alphabetChar j ∈ alphabet := by decide
  exact hall (draws i)

/-- C5: if the stripped name is empty or the stripped phone fails the
digit-count check, the handler returns a validation error with the store
unchanged, and its outcome does not depend on the random stream or on
commit-time I/O — no key generation or store write happens. -/
theorem validation_precedes_generation (st : Store) (name phone : String)
    (gen gen' : Nat → String) (nid now : Nat) (io io' : Bool)
    (h : pyStrip name = "" ∨ validate_phone (pyStrip phone) = false) :
    (∃ msg, on_generate_save st name phone gen nid now io
      = (.validationError msg, st)) ∧
    on_generate_save st name phone gen nid now io
      = on_generate_save st name phone gen' nid now io' := by
  by_cases h1 : pyStrip name = ""
  · exact ⟨⟨"Full name cannot be empty",
      by simp only [on_generate_save, if_pos h1]⟩,
      by simp only [on_generate_save, if_pos h1]⟩
  · have h2 : validate_phone (pyStrip phone) = false := h.resolve_left h1
    have hcond : (!validate_phone (pyStrip phone)) = true := by simp [h2]
    exact ⟨⟨"Phone number seems invalid. Use 7-15 digits.",
      by simp only [on_generate_save, if_neg h1, hcond, if_true]⟩,
      by simp only [on_generate_save, if_neg h1, hcond, if_true]⟩

/-- Witness for C5: a name of blanks only, with a well-formed phone. -/
theorem validation_precedes_generation_witness :
    (∃ msg, on_generate_save [] ("  ") ("1234567") (fun _ => ("K")) 1 9
      true = (.validationError msg, [])) ∧
    on_generate_save [] ("  ") ("1234567") (fun _ => ("K")) 1 9 true
      = on_generate_save [] ("  ") ("1234567") (fun _ => ("L")) 1 9
        false :=
  validation_precedes_generation [] ("  ") ("1234567") (fun _ => ("K"))
    (fun _ => ("L")) 1 9 true false (by decide)

/-- C6: the listing returned by `load_data` is in non-increasing
`created_at` order: every adjacent pair satisfies
earlier.created_at >= later.created_at, for every store state. -/
theorem load_data_sorted_desc (st : Store) :
    (load_data st).Chain' (fun a b => b.created_at ≤ a.created_at) :=
  (List.sorted_insertionSort _ st).chain'

/-- C7: the store is append-only: one `on_generate_save` call only ever
appends at most one new row at the end of the store, leaving every
existing row in place and unmodified, and the listing query returns a
permutation of the stored rows without mutating any of them. -/
theorem store_append_only (st : Store) (name phone : String)
    (gen : Nat → String) (nid now : Nat) (io : Bool) :
    (∃ tail, (on_generate_save st name phone gen nid now io).2
        = st ++ tail ∧ tail.length ≤ 1) ∧
    (load_data st).Perm st := by
  refine ⟨?_, List.perm_insertionSort _ st⟩
  rcases hres : on_generate_save st name phone gen nid now io with ⟨res, st'⟩
  cases res with
  | saved k =>
    obtain ⟨_, happ⟩ := on_generate_save_saved hres
    exact ⟨[⟨nid, pyStrip name, pyStrip phone, k, now⟩], happ, by simp⟩
  | validationError msg =>
    exact ⟨[], by
      rw [on_generate_save_not_saved hres (fun k h' => by cases h')]
      simp, by simp⟩
  | collisionExhausted =>
    exact ⟨[], by
      rw [on_generate_save_not_saved hres (fun k h' => by cases h')]
      simp, by simp⟩
  | persistenceError =>
    exact ⟨[], by
      rw [on_generate_save_not_saved hres (fun k h' => by cases h')]
      simp, by simp⟩

/-- C8: rendering is deterministic and idempotent: the artifact depends
only on the key (not on the store state), and any number of repeated
calls yields that same artifact each time. -/
theorem render_deterministic (st st' : Store) (k : String) (n : Nat) :
    render st k = render st' k ∧
    (∀ a ∈ renderRepeated st k n, a = render st' k) ∧
    (renderRepeated st k n).length = n := by
  refine ⟨rfl, ?_, ?_⟩
  · induction n with
    | zero => intro a ha; cases ha
    | succ m ih =>
      intro a ha
      simp only [renderRepeated, List.mem_cons] at ha
      rcases ha with ha | ha
      · exact ha
      · exact ih a ha
  · induction n with
    | zero => rfl
    | succ m ih => simpa [renderRepeated] using ih

/-- C9: the holder name is stripped before the emptiness check, so a
whitespace-only name is rejected with the empty-name validation error
and the store untouched; and on success the stored row holds the
stripped name and phone strings. -/
theorem whitespace_name_rejected (st : Store) (name phone : String)
    (gen : Nat → String) (nid now : Nat) (io : Bool)
    (hws : ∀ c ∈ name.toList, c.isWhitespace) :
    on_generate_save st name phone gen nid now io
      = (.validationError ("Full name cannot be empty"), st) ∧
    (∀ name' k st',
      on_generate_save st name' phone gen nid now io = (.saved k, st') →
      st' = st ++ [⟨nid, pyStrip name', pyStrip phone, k, now⟩]) := by
  have hstrip : pyStrip name = "" := by
    unfold pyStrip
    rw [List.dropWhile_eq_nil_iff.mpr hws]
    rfl
  exact ⟨by simp only [on_generate_save, if_pos hstrip],
    fun name' k st' h => (on_generate_save_saved h).2⟩

/-- Witness for C9: a two-blank name is rejected; with the name
" Ali " instead, the saved row holds the stripped fields. -/
theorem whitespace_name_rejected_witness :
    on_generate_save [] ("  ") ("1234567") (fun _ => ("K")) 1 9 true
      = (.validationError ("Full name cannot be empty"), []) ∧
    (∀ name' k st',
      on_generate_save [] name' ("1234567") (fun _ => ("K")) 1 9 true
        = (.saved k, st') →
      st' = [] ++ [⟨1, pyStrip name', pyStrip ("1234567"), k, 9⟩]) :=
  whitespace_name_rejected [] ("  ") ("1234567") (fun _ => ("K")) 1 9
    true (by decide)

/-- C10: a successful single issuance grows the store by exactly one
row, appended at the end: every pre-existing row (all its fields) is
unchanged, and the new last row is the one just issued. -/
theorem single_issuance_frame (st : Store) (name phone : String)
    (gen : Nat → String) (nid now : Nat) (io : Bool) (k : String)
    (st' : Store)
    (h : on_generate_save st name phone gen nid now io = (.saved k, st')) :
    st'.length = st.length + 1 ∧
    st'.take st.length = st ∧
    st'.getLast? = some ⟨nid, pyStrip name, pyStrip phone, k, now⟩ := by
  obtain ⟨_, happ⟩ := on_generate_save_saved h
  subst happ
  refine ⟨by simp, List.take_left st [_], by simp⟩

/-- Witness for C10: issuing into the empty store. -/
theorem single_issuance_frame_witness :
    ([⟨1, ("Ali"), ("1234567"), ("K"), 9⟩] : Store).length = ([] : Store).length + 1 ∧
    ([⟨1, ("Ali"), ("1234567"), ("K"), 9⟩] : Store).take ([] : Store).length = [] ∧
    ([⟨1, ("Ali"), ("1234567"), ("K"), 9⟩] : Store).getLast?
      = some ⟨1, pyStrip ("Ali"), pyStrip ("1234567"), ("K"), 9⟩ :=
  single_issuance_frame [] ("Ali") ("1234567") (fun _ => ("K")) 1 9 true
    ("K") [⟨1, ("Ali"), ("1234567"), ("K"), 9⟩] (by decide)
